import Mathlib

/-!
Verification of the precompile-utils call bridge
(`src/precompiles/utils/src/lib.rs`).

Shallow embedding conventions:
- `u64` values are `Nat` with explicit `% 2^64` where the source casts, and
  checked arithmetic (`checked_mul` / `checked_add`) modelled against `2^64`.
- `H160` / `H256` / `U256` values are abstract `Nat`s: only equality and the
  `> 0` test on `apparent_value` matter to the verified code.
- Byte strings (`Vec<u8>`) are `List Nat`; revert payloads are `String`s since
  the source only ever stores UTF-8 messages in them here.
- The mutable `PrecompileHandle` is explicit state (`Handle`): each stateful
  operation returns `(result, new state)`; an error return leaves the state it
  was given, matching Rust early return through `?` on a `&mut` handle.
- External collaborators (`GasWeightMapping::weight_to_gas`,
  `get_dispatch_info`, `Dispatchable::dispatch`) are parameters of
  `try_dispatch`.
-/

/-- Mirrors `fp_evm::ExitError` restricted to the variants this crate builds:
`OutOfGas` and `Other(text)`. -/
inductive ExitError where
  | OutOfGas : ExitError
  | Other : String → ExitError
deriving DecidableEq

/-- Mirrors `fp_evm::PrecompileFailure` restricted to what this crate builds:
`Error { exit_status }` and `Revert { exit_status: Reverted, output }` (the
`exit_status` of a revert is always `ExitRevert::Reverted` in this crate, so it
is not carried). -/
inductive PrecompileFailure where
  | Error : ExitError → PrecompileFailure
  | Revert : String → PrecompileFailure
deriving DecidableEq

/-- Mirrors `EvmResult<T> = Result<T, PrecompileFailure>` from the source. -/
abbrev EvmResult (T : Type := Unit) := Except PrecompileFailure T

/-- Mirrors `revert(output)` from the source: builds
`PrecompileFailure::Revert { exit_status: Reverted, output }`. -/
def revert (output : String) : PrecompileFailure :=
  PrecompileFailure.Revert output

/-- Mirrors `pallet_evm::Log { address, topics, data }`. -/
structure Log where
  address : Nat
  topics : List Nat
  data : List Nat
deriving DecidableEq

/-- Mirrors `LogsBuilder { address }`. -/
structure LogsBuilder where
  address : Nat
deriving DecidableEq

/-- Mirrors `LogsBuilder::log0`. -/
def LogsBuilder.log0 (b : LogsBuilder) (data : List Nat) : Log :=
  { address := b.address, topics := [], data := data }

/-- Mirrors `LogsBuilder::log1`. -/
def LogsBuilder.log1 (b : LogsBuilder) (topic0 : Nat) (data : List Nat) : Log :=
  { address := b.address, topics := [topic0], data := data }

/-- Mirrors `LogsBuilder::log2`. -/
def LogsBuilder.log2 (b : LogsBuilder) (topic0 topic1 : Nat)
    (data : List Nat) : Log :=
  { address := b.address, topics := [topic0, topic1], data := data }

/-- Mirrors `LogsBuilder::log3`. -/
def LogsBuilder.log3 (b : LogsBuilder) (topic0 topic1 topic2 : Nat)
    (data : List Nat) : Log :=
  { address := b.address, topics := [topic0, topic1, topic2], data := data }

/-- Mirrors `LogsBuilder::log4`. -/
def LogsBuilder.log4 (b : LogsBuilder) (topic0 topic1 topic2 topic3 : Nat)
    (data : List Nat) : Log :=
  { address := b.address, topics := [topic0, topic1, topic2, topic3],
    data := data }

/-- Rust `u64::checked_mul`: `none` when the product does not fit in 64 bits. -/
def u64_checked_mul (a b : Nat) : Option Nat :=
  if a * b < 2 ^ 64 then some (a * b) else none

/-- Rust `u64::checked_add`: `none` when the sum does not fit in 64 bits. -/
def u64_checked_add (a b : Nat) : Option Nat :=
  if a + b < 2 ^ 64 then some (a + b) else none

/-- Mirrors `log_costs(topics, data_len)` from the source: constants
`G_LOG = 375`, `G_LOGDATA = 8`, `G_LOGTOPIC = 375`; each step is checked
64-bit arithmetic, and `.ok_or(OutOfGas)?` on a failed step is inlined as the
`none` branch returning the `OutOfGas` failure, short-circuiting the rest.
The `% 2^64` is the source's `as u64` cast of the `usize` arguments. -/
def log_costs (topics : Nat) (data_len : Nat) : EvmResult Nat :=
  match u64_checked_mul 375 (topics % 2 ^ 64) with
  | none => Except.error (PrecompileFailure.Error ExitError.OutOfGas)
  | some topic_cost =>
    match u64_checked_mul 8 (data_len % 2 ^ 64) with
    | none => Except.error (PrecompileFailure.Error ExitError.OutOfGas)
    | some data_cost =>
      match u64_checked_add 375 topic_cost with
      | none => Except.error (PrecompileFailure.Error ExitError.OutOfGas)
      | some sum =>
        match u64_checked_add sum data_cost with
        | none => Except.error (PrecompileFailure.Error ExitError.OutOfGas)
        | some total => Except.ok total

/-- Mirrors `Log::compute_cost` from the source:
`log_costs(self.topics.len(), self.data.len())`. -/
def Log.compute_cost (l : Log) : EvmResult Nat :=
  log_costs l.topics.length l.data.length

/-- State of the `PrecompileHandle`: the remaining gas of its gasometer and
the logs it has emitted so far. -/
structure Handle where
  remaining : Nat
  logs : List Log
deriving DecidableEq

/-- Modelled from the spec: `GasBudget.check_and_charge` / the external
`PrecompileHandle::record_cost` (fp_evm, not under src): atomic
compare-then-subtract, failing with `OutOfGas` and no mutation when
`amount > remaining`. -/
def Handle.record_cost (h : Handle) (amount : Nat) : EvmResult × Handle :=
  if h.remaining < amount then
    (Except.error (PrecompileFailure.Error ExitError.OutOfGas), h)
  else
    (Except.ok (), { h with remaining := h.remaining - amount })

/-- Modelled from the spec: the external emission sink
`PrecompileHandle::log(address, topics, data)` (fp_evm, not under src):
accepts the fully constructed event and never fails. -/
def Handle.log (h : Handle) (address : Nat) (topics : List Nat)
    (data : List Nat) : EvmResult × Handle :=
  (Except.ok (), { h with logs := h.logs ++ [Log.mk address topics data] })

/-- Mirrors `Log::record` from the source:
`handle.log(self.address, self.topics, self.data)?; Ok(())`. -/
def Log.record (l : Log) (h : Handle) : EvmResult × Handle :=
  h.log l.address l.topics l.data

/-- Mirrors `PrecompileHandleExt::record_log_costs_manual` from the source:
`self.record_cost(log_costs(topics, data_len)?)?`. -/
def Handle.record_log_costs_manual (h : Handle) (topics : Nat)
    (data_len : Nat) : EvmResult × Handle :=
  match log_costs topics data_len with
  | Except.error e => (Except.error e, h)
  | Except.ok c => h.record_cost c

/-- Mirrors `PrecompileHandleExt::record_log_costs` from the source: iterate
over the logs, recording each cost via `record_log_costs_manual`, with `?`
propagating the first failure. -/
def Handle.record_log_costs (h : Handle) : List Log → EvmResult × Handle
  | [] => (Except.ok (), h)
  | l :: ls =>
    match h.record_log_costs_manual l.topics.length l.data.length with
    | (Except.ok _, h2) => h2.record_log_costs ls
    | (Except.error e, h2) => (Except.error e, h2)

/-- Modelled from the spec: `record_and_emit(event, budget, sink)` (§4.3).
This orchestration is not under src (it lives in the individual precompile
crates); the spec defines it as: charge the event cost first (via the
source's `record_log_costs_manual`), and only after the charge succeeds hand
the event to the sink (via the source's `Log::record`). -/
def record_and_emit (event : Log) (h : Handle) : EvmResult × Handle :=
  match h.record_log_costs_manual event.topics.length event.data.length with
  | (Except.ok _, h2) => event.record h2
  | (Except.error e, h2) => (Except.error e, h2)

/-- Mirrors `fp_evm::Context` (address, caller, apparent_value). -/
structure Context where
  address : Nat
  caller : Nat
  apparent_value : Nat
deriving DecidableEq

/-- Mirrors `FunctionModifier` from the source. -/
inductive FunctionModifier where
  | View : FunctionModifier
  | NonPayable : FunctionModifier
  | Payable : FunctionModifier
deriving DecidableEq

/-- Mirrors `check_function_modifier(context, is_static, modifier)` from the
source, rule for rule and message for message. -/
def check_function_modifier (context : Context) (is_static : Bool)
    (modifier : FunctionModifier) : EvmResult :=
  if is_static ∧ modifier ≠ FunctionModifier.View then
    Except.error (revert "can\x27t call non-static function in static context")
  else if modifier ≠ FunctionModifier.Payable ∧ 0 < context.apparent_value then
    Except.error (revert "function is not payable")
  else
    Except.ok ()

/-- Mirrors `DispatchInfo` as used by the source: only the `weight` field is
read (weights are abstract cost units, modelled as `Nat`). -/
structure DispatchInfo where
  weight : Nat
deriving DecidableEq

/-- Mirrors `PostDispatchInfo` as used by the source: only `actual_weight`
is read. -/
structure PostDispatchInfo where
  actual_weight : Option Nat
deriving DecidableEq

/-- Mirrors `RuntimeHelper::try_dispatch` from the source.
External collaborators are parameters:
`weight_to_gas` is `Runtime::GasWeightMapping::weight_to_gas`;
`dispatch_info` is `call.get_dispatch_info()`;
`dispatch_result` is the outcome of `call.dispatch(origin)`, with a native
failure already rendered to its `{:?}` debug text (the failure value is
opaque to this component).
Steps, as in the source: compare `required_gas` against `remaining_gas`
(fail `OutOfGas` before dispatching); on dispatch failure return
`revert("Dispatched call failed with error: " ++ text)` via `?`; on success
charge `weight_to_gas(actual_weight.unwrap_or(dispatch_info.weight))`. -/
def try_dispatch (weight_to_gas : Nat → Nat) (dispatch_info : DispatchInfo)
    (dispatch_result : Except String PostDispatchInfo) (handle : Handle) :
    EvmResult × Handle :=
  let remaining_gas := handle.remaining
  let required_gas := weight_to_gas dispatch_info.weight
  if remaining_gas < required_gas then
    (Except.error (PrecompileFailure.Error ExitError.OutOfGas), handle)
  else
    match dispatch_result with
    | Except.error e =>
      (Except.error (revert ("Dispatched call failed with error: " ++ e)),
        handle)
    | Except.ok result =>
      let used_weight := result.actual_weight
      let used_gas := weight_to_gas (used_weight.getD dispatch_info.weight)
      handle.record_cost used_gas

/-! ### Claims about `try_dispatch` -/

/-- C5: when the estimated required gas exceeds the remaining budget,
`try_dispatch` fails with `OutOfGas`, the handle (in particular its remaining
gas) is unchanged, and the result is independent of the dispatch outcome —
the native executor is never invoked. -/
theorem c5_try_dispatch_out_of_gas (weight_to_gas : Nat → Nat)
    (dispatch_info : DispatchInfo) (h : Handle)
    (hgt : h.remaining < weight_to_gas dispatch_info.weight) :
    ∀ d : Except String PostDispatchInfo,
      try_dispatch weight_to_gas dispatch_info d h
        = (Except.error (PrecompileFailure.Error ExitError.OutOfGas), h) := by
  intro d
  simp [try_dispatch, hgt]

/-- C5 witness: with `remaining = 100` and `required = 150`, `try_dispatch`
fails with `OutOfGas`, leaves `remaining` at 100, and returns the same result
for two different executor outcomes. -/
theorem c5_try_dispatch_out_of_gas_witness :
    try_dispatch (fun w => w) ⟨150⟩ (Except.ok ⟨none⟩) ⟨100, []⟩
        = (Except.error (PrecompileFailure.Error ExitError.OutOfGas),
           ⟨100, []⟩) ∧
    try_dispatch (fun w => w) ⟨150⟩ (Except.error "boom") ⟨100, []⟩
        = (Except.error (PrecompileFailure.Error ExitError.OutOfGas),
           ⟨100, []⟩) :=
  ⟨c5_try_dispatch_out_of_gas (fun w => w) ⟨150⟩ ⟨100, []⟩ (by decide)
      (Except.ok ⟨none⟩),
   c5_try_dispatch_out_of_gas (fun w => w) ⟨150⟩ ⟨100, []⟩ (by decide)
      (Except.error "boom")⟩

/-- C4: when the native call succeeds, the gas charged is the gas conversion
of the actual weight when the native result reports one, and the gas
conversion of the estimated weight (the required gas) otherwise. -/
theorem c4_try_dispatch_success_charge (weight_to_gas : Nat → Nat)
    (dispatch_info : DispatchInfo) (h : Handle)
    (hreq : weight_to_gas dispatch_info.weight ≤ h.remaining) :
    (try_dispatch weight_to_gas dispatch_info (Except.ok ⟨none⟩) h
        = (Except.ok (),
           { h with remaining :=
               h.remaining - weight_to_gas dispatch_info.weight })) ∧
    (∀ w : Nat, weight_to_gas w ≤ h.remaining →
      try_dispatch weight_to_gas dispatch_info (Except.ok ⟨some w⟩) h
        = (Except.ok (),
           { h with remaining := h.remaining - weight_to_gas w })) := by
  constructor
  · simp [try_dispatch, Handle.record_cost, Nat.not_lt.mpr hreq,
      Option.getD]
  · intro w hw
    simp [try_dispatch, Handle.record_cost, Nat.not_lt.mpr hreq,
      Nat.not_lt.mpr hw, Option.getD]

/-- C4 witness: with `remaining = 100` and `required = 80`, a native result
with no actual-cost override leaves `remaining = 20`, and an override of
`actual_cost = 50` leaves `remaining = 50`. -/
theorem c4_try_dispatch_success_charge_witness :
    try_dispatch (fun w => w) ⟨80⟩ (Except.ok ⟨none⟩) ⟨100, []⟩
        = (Except.ok (), ⟨20, []⟩) ∧
    try_dispatch (fun w => w) ⟨80⟩ (Except.ok ⟨some 50⟩) ⟨100, []⟩
        = (Except.ok (), ⟨50, []⟩) :=
  ⟨(c4_try_dispatch_success_charge (fun w => w) ⟨80⟩ ⟨100, []⟩
      (by decide)).1,
   (c4_try_dispatch_success_charge (fun w => w) ⟨80⟩ ⟨100, []⟩
      (by decide)).2 50 (by decide)⟩

/-- C2 counterexample: the claim states that a native dispatch failure yields
an `Error` outcome, but the source calls `revert(format!(...))`: on a
concrete failing dispatch the outcome is a `Revert` embedding the formatted
text, and is not equal to `Error es` for any exit status `es`. -/
theorem c2_native_failure_counterexample :
    (try_dispatch (fun w => w) ⟨5⟩ (Except.error "BadOrigin") ⟨50, []⟩).1
        = Except.error
            (PrecompileFailure.Revert
              "Dispatched call failed with error: BadOrigin") ∧
    ∀ es : ExitError,
      (try_dispatch (fun w => w) ⟨5⟩ (Except.error "BadOrigin") ⟨50, []⟩).1
          ≠ Except.error (PrecompileFailure.Error es) := by
  constructor
  · rfl
  · intro es hcontra
    simp [try_dispatch, revert] at hcontra

/-- C2 amended: on native dispatch failure (with the estimate affordable, so
the executor is reached), `try_dispatch` returns a `Revert` outcome — not an
`Error` and not `OutOfGas` — whose output embeds the formatted textual
description of the native failure value; the handle is unchanged. -/
theorem c2_native_failure_reverts (weight_to_gas : Nat → Nat)
    (dispatch_info : DispatchInfo) (h : Handle) (e : String)
    (hreq : weight_to_gas dispatch_info.weight ≤ h.remaining) :
    try_dispatch weight_to_gas dispatch_info (Except.error e) h
        = (Except.error
            (PrecompileFailure.Revert
              ("Dispatched call failed with error: " ++ e)), h) := by
  simp [try_dispatch, revert, Nat.not_lt.mpr hreq]

/-- C2 amended witness: a concrete failing dispatch produces the `Revert`
with the formatted message. -/
theorem c2_native_failure_reverts_witness :
    try_dispatch (fun w => w) ⟨7⟩ (Except.error "Overflow") ⟨90, []⟩
        = (Except.error
            (PrecompileFailure.Revert
              "Dispatched call failed with error: Overflow"), ⟨90, []⟩) :=
  c2_native_failure_reverts (fun w => w) ⟨7⟩ ⟨90, []⟩ "Overflow" (by decide)

/-- C1 counterexample: the claim states that no execution of `try_dispatch`
in which the native call is invoked terminates without charging that call's
cost. Here the estimate (10) is affordable out of 100 so the dispatch is
invoked; it fails, the failure's text reaches the outcome (so the executor's
result was consumed), and the execution terminates with `remaining` still
100 — no cost was charged. -/
theorem c1_charge_counterexample :
    (try_dispatch (fun w => w) ⟨10⟩ (Except.error "TestError")
        ⟨100, []⟩).2.remaining = 100 ∧
    (try_dispatch (fun w => w) ⟨10⟩ (Except.error "TestError")
        ⟨100, []⟩).1
      = Except.error
          (PrecompileFailure.Revert
            "Dispatched call failed with error: TestError") :=
  ⟨rfl, rfl⟩

/-- C1 amended: an execution of `try_dispatch` whose native call is invoked
and succeeds charges the call's cost exactly once (remaining gas decreases by
exactly the used gas); but when the invoked native call fails, `try_dispatch`
terminates without charging anything (the handle is unchanged). -/
theorem c1_charged_once_on_success_only (weight_to_gas : Nat → Nat)
    (dispatch_info : DispatchInfo) (h : Handle)
    (hreq : weight_to_gas dispatch_info.weight ≤ h.remaining) :
    (∀ r : PostDispatchInfo,
      weight_to_gas (r.actual_weight.getD dispatch_info.weight)
          ≤ h.remaining →
      (try_dispatch weight_to_gas dispatch_info (Except.ok r) h).2.remaining
        = h.remaining
            - weight_to_gas (r.actual_weight.getD dispatch_info.weight)) ∧
    (∀ e : String,
      (try_dispatch weight_to_gas dispatch_info (Except.error e) h).2
        = h) := by
  constructor
  · intro r hw
    simp [try_dispatch, Handle.record_cost, Nat.not_lt.mpr hreq,
      Nat.not_lt.mpr hw]
  · intro e
    simp [try_dispatch, Nat.not_lt.mpr hreq]

/-- C1 amended witness: with `remaining = 100`, a successful dispatch of
required gas 80 leaves 20 (charged exactly once), while a failing dispatch
leaves the handle unchanged. -/
theorem c1_charged_once_on_success_only_witness :
    (try_dispatch (fun w => w) ⟨80⟩ (Except.ok ⟨none⟩)
        ⟨100, []⟩).2.remaining = 20 ∧
    (try_dispatch (fun w => w) ⟨80⟩ (Except.error "Oops") ⟨100, []⟩).2
        = ⟨100, []⟩ :=
  ⟨(c1_charged_once_on_success_only (fun w => w) ⟨80⟩ ⟨100, []⟩
      (by decide)).1 ⟨none⟩ (by decide),
   (c1_charged_once_on_success_only (fun w => w) ⟨80⟩ ⟨100, []⟩
      (by decide)).2 "Oops"⟩

/-! ### Claims about `check_function_modifier` -/

/-- C6: `check_function_modifier` evaluates its rules in order: a static
context with a non-View modifier reverts with the static-context message;
otherwise a non-Payable modifier with a positive apparent value reverts with
the not-payable message; otherwise it succeeds. -/
theorem c6_check_function_modifier_rules (context : Context)
    (is_static : Bool) (modifier : FunctionModifier) :
    (is_static = true → modifier ≠ FunctionModifier.View →
      check_function_modifier context is_static modifier
        = Except.error
            (revert "can\x27t call non-static function in static context")) ∧
    ((is_static = true → modifier = FunctionModifier.View) →
      modifier ≠ FunctionModifier.Payable → 0 < context.apparent_value →
      check_function_modifier context is_static modifier
        = Except.error (revert "function is not payable")) ∧
    ((is_static = true → modifier = FunctionModifier.View) →
      (modifier = FunctionModifier.Payable ∨ context.apparent_value = 0) →
      check_function_modifier context is_static modifier
        = Except.ok ()) := by
  refine ⟨?_, ?_, ?_⟩
  · intro hs hm
    simp [check_function_modifier, hs, hm]
  · intro hfirst hm hv
    rcases is_static with _ | _
    · simp [check_function_modifier, hm, hv]
    · simp [check_function_modifier, hfirst rfl, hm, hv]
  · intro hfirst hsnd
    rcases is_static with _ | _
    · rcases hsnd with hp | hz
      · simp [check_function_modifier, hp]
      · simp [check_function_modifier, hz]
    · have hView := hfirst rfl
      rcases hsnd with hp | hz
      · exact absurd (hView.symm.trans hp) (by decide)
      · simp [check_function_modifier, hView, hz]

/-- C6 witness: the five behaviours from the spec's test vectors, each
obtained from the rule theorem at a concrete context. -/
theorem c6_check_function_modifier_rules_witness :
    check_function_modifier ⟨1, 2, 0⟩ true FunctionModifier.NonPayable
        = Except.error
            (revert "can\x27t call non-static function in static context") ∧
    check_function_modifier ⟨1, 2, 0⟩ true FunctionModifier.View
        = Except.ok () ∧
    check_function_modifier ⟨1, 2, 5⟩ false FunctionModifier.NonPayable
        = Except.error (revert "function is not payable") ∧
    check_function_modifier ⟨1, 2, 5⟩ false FunctionModifier.Payable
        = Except.ok () ∧
    check_function_modifier ⟨1, 2, 0⟩ false FunctionModifier.NonPayable
        = Except.ok () :=
  ⟨(c6_check_function_modifier_rules ⟨1, 2, 0⟩ true
      FunctionModifier.NonPayable).1 rfl (by decide),
   (c6_check_function_modifier_rules ⟨1, 2, 0⟩ true
      FunctionModifier.View).2.2 (fun _ => rfl) (Or.inr rfl),
   (c6_check_function_modifier_rules ⟨1, 2, 5⟩ false
      FunctionModifier.NonPayable).2.1 (by simp) (by decide) (by decide),
   (c6_check_function_modifier_rules ⟨1, 2, 5⟩ false
      FunctionModifier.Payable).2.2 (by simp) (Or.inl rfl),
   (c6_check_function_modifier_rules ⟨1, 2, 0⟩ false
      FunctionModifier.NonPayable).2.2 (by simp) (Or.inr rfl)⟩

/-- C9: the result of `check_function_modifier` depends only on the static
flag, the modifier, and the context's `apparent_value`: two contexts that
agree on `apparent_value` (but may differ in address and caller) yield
identical results. -/
theorem c9_check_function_modifier_depends_only_on_value
    (ctx1 ctx2 : Context) (is_static : Bool) (modifier : FunctionModifier)
    (hv : ctx1.apparent_value = ctx2.apparent_value) :
    check_function_modifier ctx1 is_static modifier
      = check_function_modifier ctx2 is_static modifier := by
  unfold check_function_modifier
  rw [hv]

/-- C9 witness: two contexts differing in address and caller but agreeing on
`apparent_value` give the same result. -/
theorem c9_check_function_modifier_depends_only_on_value_witness :
    check_function_modifier ⟨1, 2, 5⟩ false FunctionModifier.NonPayable
      = check_function_modifier ⟨3, 4, 5⟩ false FunctionModifier.NonPayable :=
  c9_check_function_modifier_depends_only_on_value ⟨1, 2, 5⟩ ⟨3, 4, 5⟩
    false FunctionModifier.NonPayable rfl

/-! ### Claims about `log_costs` -/

/-- Helper: on in-range inputs with no intermediate overflow, `log_costs`
computes the exact formula. Shared by the `log_costs` claims. -/
theorem log_costs_ok_of_no_overflow (tc dl : Nat) (h1 : tc < 2 ^ 64)
    (h2 : dl < 2 ^ 64) (hm1 : 375 * tc < 2 ^ 64) (hm2 : 8 * dl < 2 ^ 64)
    (ha1 : 375 + 375 * tc < 2 ^ 64)
    (ha2 : 375 + 375 * tc + 8 * dl < 2 ^ 64) :
    log_costs tc dl = Except.ok (375 + 375 * tc + 8 * dl) := by
  have e1 : u64_checked_mul 375 (tc % 2 ^ 64) = some (375 * tc) := by
    unfold u64_checked_mul
    rw [Nat.mod_eq_of_lt h1]
    exact if_pos hm1
  have e2 : u64_checked_mul 8 (dl % 2 ^ 64) = some (8 * dl) := by
    unfold u64_checked_mul
    rw [Nat.mod_eq_of_lt h2]
    exact if_pos hm2
  have e3 : u64_checked_add 375 (375 * tc) = some (375 + 375 * tc) := by
    unfold u64_checked_add
    exact if_pos ha1
  have e4 : u64_checked_add (375 + 375 * tc) (8 * dl)
      = some (375 + 375 * tc + 8 * dl) := by
    unfold u64_checked_add
    exact if_pos ha2
  simp only [log_costs, e1, e2, e3, e4]

/-- C3: on 64-bit inputs, `log_costs` returns exactly
`375 + 375 * topic_count + 8 * data_len` whenever every intermediate
multiplication and addition fits in an unsigned 64-bit integer, and returns
the `OutOfGas` failure (no partial result) as soon as any intermediate step
overflows, short-circuiting the remaining steps in the source's order:
topic product, data product, first addition, second addition. -/
theorem c3_log_costs_formula (tc dl : Nat) (h1 : tc < 2 ^ 64)
    (h2 : dl < 2 ^ 64) :
    (375 * tc < 2 ^ 64 → 8 * dl < 2 ^ 64 → 375 + 375 * tc < 2 ^ 64 →
        375 + 375 * tc + 8 * dl < 2 ^ 64 →
        log_costs tc dl = Except.ok (375 + 375 * tc + 8 * dl)) ∧
    (2 ^ 64 ≤ 375 * tc →
        log_costs tc dl
          = Except.error (PrecompileFailure.Error ExitError.OutOfGas)) ∧
    (375 * tc < 2 ^ 64 → 2 ^ 64 ≤ 8 * dl →
        log_costs tc dl
          = Except.error (PrecompileFailure.Error ExitError.OutOfGas)) ∧
    (375 * tc < 2 ^ 64 → 8 * dl < 2 ^ 64 → 2 ^ 64 ≤ 375 + 375 * tc →
        log_costs tc dl
          = Except.error (PrecompileFailure.Error ExitError.OutOfGas)) ∧
    (375 * tc < 2 ^ 64 → 8 * dl < 2 ^ 64 → 375 + 375 * tc < 2 ^ 64 →
        2 ^ 64 ≤ 375 + 375 * tc + 8 * dl →
        log_costs tc dl
          = Except.error (PrecompileFailure.Error ExitError.OutOfGas)) := by
  refine ⟨?_, ?_, ?_, ?_, ?_⟩
  · intro hm1 hm2 ha1 ha2
    exact log_costs_ok_of_no_overflow tc dl h1 h2 hm1 hm2 ha1 ha2
  · intro hov
    have e1 : u64_checked_mul 375 (tc % 2 ^ 64) = none := by
      unfold u64_checked_mul
      rw [Nat.mod_eq_of_lt h1]
      exact if_neg (Nat.not_lt.mpr hov)
    simp only [log_costs, e1]
  · intro hm1 hov
    have e1 : u64_checked_mul 375 (tc % 2 ^ 64) = some (375 * tc) := by
      unfold u64_checked_mul
      rw [Nat.mod_eq_of_lt h1]
      exact if_pos hm1
    have e2 : u64_checked_mul 8 (dl % 2 ^ 64) = none := by
      unfold u64_checked_mul
      rw [Nat.mod_eq_of_lt h2]
      exact if_neg (Nat.not_lt.mpr hov)
    simp only [log_costs, e1, e2]
  · intro hm1 hm2 hov
    have e1 : u64_checked_mul 375 (tc % 2 ^ 64) = some (375 * tc) := by
      unfold u64_checked_mul
      rw [Nat.mod_eq_of_lt h1]
      exact if_pos hm1
    have e2 : u64_checked_mul 8 (dl % 2 ^ 64) = some (8 * dl) := by
      unfold u64_checked_mul
      rw [Nat.mod_eq_of_lt h2]
      exact if_pos hm2
    have e3 : u64_checked_add 375 (375 * tc) = none := by
      unfold u64_checked_add
      exact if_neg (Nat.not_lt.mpr hov)
    simp only [log_costs, e1, e2, e3]
  · intro hm1 hm2 ha1 hov
    have e1 : u64_checked_mul 375 (tc % 2 ^ 64) = some (375 * tc) := by
      unfold u64_checked_mul
      rw [Nat.mod_eq_of_lt h1]
      exact if_pos hm1
    have e2 : u64_checked_mul 8 (dl % 2 ^ 64) = some (8 * dl) := by
      unfold u64_checked_mul
      rw [Nat.mod_eq_of_lt h2]
      exact if_pos hm2
    have e3 : u64_checked_add 375 (375 * tc) = some (375 + 375 * tc) := by
      unfold u64_checked_add
      exact if_pos ha1
    have e4 : u64_checked_add (375 + 375 * tc) (8 * dl) = none := by
      unfold u64_checked_add
      exact if_neg (Nat.not_lt.mpr hov)
    simp only [log_costs, e1, e2, e3, e4]

/-- C3 witness: one concrete instance of each of the five branches — the
exact formula on small inputs, topic-product overflow, data-product
overflow, first-addition overflow (at the unique topic count whose product
lands within 375 of `2^64`), and second-addition overflow. -/
theorem c3_log_costs_formula_witness :
    log_costs 2 3 = Except.ok 1149 ∧
    log_costs (2 ^ 60) 0
      = Except.error (PrecompileFailure.Error ExitError.OutOfGas) ∧
    log_costs 0 (2 ^ 61)
      = Except.error (PrecompileFailure.Error ExitError.OutOfGas) ∧
    log_costs 49191317529892137 0
      = Except.error (PrecompileFailure.Error ExitError.OutOfGas) ∧
    log_costs 0 (2 ^ 61 - 1)
      = Except.error (PrecompileFailure.Error ExitError.OutOfGas) :=
  ⟨(c3_log_costs_formula 2 3 (by decide) (by decide)).1 (by decide)
      (by decide) (by decide) (by decide),
   (c3_log_costs_formula (2 ^ 60) 0 (by decide) (by decide)).2.1
      (by decide),
   (c3_log_costs_formula 0 (2 ^ 61) (by decide) (by decide)).2.2.1
      (by decide) (by decide),
   (c3_log_costs_formula 49191317529892137 0 (by decide)
      (by decide)).2.2.2.1 (by decide) (by decide) (by decide),
   (c3_log_costs_formula 0 (2 ^ 61 - 1) (by decide) (by decide)).2.2.2.2
      (by decide) (by decide) (by decide) (by decide)⟩

/-- C10: with at most 4 topics and a total cost within 64 bits, `log_costs`
always succeeds with the exact formula (the overflow branch is unreachable);
consequently `compute_cost` on any log whose topic count is at most 4 — as
holds for every log built by the `log0`–`log4` constructors, whose topic
counts are 0–4 — succeeds whenever the data length is below
`2305843009213693718` (which is `2^61 - 234`), so it can only fail for data
lengths on the order of `2^61` bytes. -/
theorem c10_log_costs_small_inputs_ok (tc dl : Nat) (l : Log)
    (h1 : tc ≤ 4) (h2 : 375 + 375 * tc + 8 * dl ≤ 2 ^ 64 - 1)
    (h3 : l.topics.length ≤ 4) (h4 : l.data.length < 2305843009213693718) :
    log_costs tc dl = Except.ok (375 + 375 * tc + 8 * dl) ∧
    l.compute_cost
      = Except.ok (375 + 375 * l.topics.length + 8 * l.data.length) ∧
    (∀ (b : LogsBuilder) (t0 t1 t2 t3 : Nat) (data : List Nat),
      (b.log0 data).topics.length = 0 ∧
      (b.log1 t0 data).topics.length = 1 ∧
      (b.log2 t0 t1 data).topics.length = 2 ∧
      (b.log3 t0 t1 t2 data).topics.length = 3 ∧
      (b.log4 t0 t1 t2 t3 data).topics.length = 4) := by
  refine ⟨?_, ?_, ?_⟩
  · exact log_costs_ok_of_no_overflow tc dl (by omega) (by omega) (by omega)
      (by omega) (by omega) (by omega)
  · exact log_costs_ok_of_no_overflow l.topics.length l.data.length
      (by omega) (by omega) (by omega) (by omega) (by omega) (by omega)
  · intro b t0 t1 t2 t3 data
    exact ⟨rfl, rfl, rfl, rfl, rfl⟩

/-- C10 witness: `log_costs 4 10` succeeds with the formula value, and
`compute_cost` of a concrete `log4`-built event with 3 data bytes succeeds
with `375 + 375*4 + 8*3 = 1899`. -/
theorem c10_log_costs_small_inputs_ok_witness :
    log_costs 4 10 = Except.ok 1955 ∧
    (LogsBuilder.log4 ⟨7⟩ 1 2 3 4 [9, 9, 9]).compute_cost
      = Except.ok 1899 :=
  ⟨(c10_log_costs_small_inputs_ok 4 10 (LogsBuilder.log4 ⟨7⟩ 1 2 3 4
        [9, 9, 9]) (by decide) (by decide) (by decide) (by decide)).1,
   (c10_log_costs_small_inputs_ok 4 10 (LogsBuilder.log4 ⟨7⟩ 1 2 3 4
        [9, 9, 9]) (by decide) (by decide) (by decide) (by decide)).2.1⟩

/-! ### Claims about log cost recording and emission -/

/-- C7: `record_and_emit` first computes the event's cost via `log_costs` on
its topic count and data length and charges the budget; only when the charge
succeeds is the event handed to the emission sink (appended to the handle's
logs). When the charge fails with `OutOfGas` — or the cost computation
itself fails — no emission occurs and the handle is unchanged. -/
theorem c7_record_and_emit_charge_before_emit (l : Log) (h : Handle) :
    (∀ c : Nat, log_costs l.topics.length l.data.length = Except.ok c →
      (c ≤ h.remaining →
        record_and_emit l h
          = (Except.ok (), ⟨h.remaining - c, h.logs ++ [l]⟩)) ∧
      (h.remaining < c →
        record_and_emit l h
          = (Except.error (PrecompileFailure.Error ExitError.OutOfGas),
             h))) ∧
    (∀ e : PrecompileFailure,
      log_costs l.topics.length l.data.length = Except.error e →
      record_and_emit l h = (Except.error e, h)) := by
  constructor
  · intro c hc
    constructor
    · intro hle
      simp [record_and_emit, Handle.record_log_costs_manual, hc,
        Handle.record_cost, Nat.not_lt.mpr hle, Log.record, Handle.log]
    · intro hlt
      simp [record_and_emit, Handle.record_log_costs_manual, hc,
        Handle.record_cost, hlt]
  · intro e he
    simp [record_and_emit, Handle.record_log_costs_manual, he]

/-- C7 witness: a topic-less empty-data event costs 375: with 1000 gas it is
charged and then emitted; with only 10 gas the charge fails with `OutOfGas`
and the log list stays empty. -/
theorem c7_record_and_emit_charge_before_emit_witness :
    record_and_emit ⟨0, [], []⟩ ⟨1000, []⟩
        = (Except.ok (), ⟨625, [⟨0, [], []⟩]⟩) ∧
    record_and_emit ⟨0, [], []⟩ ⟨10, []⟩
        = (Except.error (PrecompileFailure.Error ExitError.OutOfGas),
           ⟨10, []⟩) :=
  ⟨((c7_record_and_emit_charge_before_emit ⟨0, [], []⟩ ⟨1000, []⟩).1 375
      rfl).1 (by decide),
   ((c7_record_and_emit_charge_before_emit ⟨0, [], []⟩ ⟨10, []⟩).1 375
      rfl).2 (by decide)⟩

/-- C8: `record_log_costs` charges each event's cost in sequence order, one
charge per event. When every charge is affordable it succeeds having charged
exactly the sum. When the first failing charge is the one at index `k`
(prefix sum through `k` affordable, through `k + 1` not), it returns
`OutOfGas` immediately with exactly the first `k` events' costs committed —
subsequent events are not charged and earlier charges are not rolled back. -/
theorem c8_record_log_costs_fail_fast (ls : List Log) (cs : List Nat)
    (h : Handle)
    (hcs : ls.map (fun l => log_costs l.topics.length l.data.length)
        = cs.map Except.ok) :
    (cs.sum ≤ h.remaining →
      h.record_log_costs ls
        = (Except.ok (), { h with remaining := h.remaining - cs.sum })) ∧
    (∀ k : Nat, k < ls.length → (cs.take k).sum ≤ h.remaining →
        h.remaining < (cs.take (k + 1)).sum →
      h.record_log_costs ls
        = (Except.error (PrecompileFailure.Error ExitError.OutOfGas),
           { h with remaining := h.remaining - (cs.take k).sum })) := by
  induction ls generalizing cs h with
  | nil =>
    have hnil : cs = [] := by
      cases cs with
      | nil => rfl
      | cons c cs2 => simp at hcs
    subst hnil
    constructor
    · intro _
      simp [Handle.record_log_costs]
    · intro k hk
      simp at hk
  | cons l ls ih =>
    cases cs with
    | nil => simp at hcs
    | cons c cs2 =>
      simp only [List.map_cons, List.cons.injEq] at hcs
      obtain ⟨hc, hrest⟩ := hcs
      constructor
      · intro hsum
        simp only [List.sum_cons] at hsum
        have hcle : c ≤ h.remaining := by omega
        have step : h.record_log_costs (l :: ls)
            = Handle.record_log_costs
                { h with remaining := h.remaining - c } ls := by
          simp [Handle.record_log_costs, Handle.record_log_costs_manual, hc,
            Handle.record_cost, Nat.not_lt.mpr hcle]
        rw [step,
          (ih cs2 { h with remaining := h.remaining - c } hrest).1
            (by simp; omega)]
        simp [List.sum_cons]
        omega
      · intro k hk hlow hhigh
        cases k with
        | zero =>
          simp only [List.take_succ_cons, List.take_zero, List.sum_cons,
            List.sum_nil, Nat.add_zero] at hhigh
          simp only [List.take_zero, List.sum_nil, Nat.sub_zero]
          simp [Handle.record_log_costs, Handle.record_log_costs_manual, hc,
            Handle.record_cost, hhigh]
        | succ k2 =>
          simp only [List.take_succ_cons, List.sum_cons] at hlow hhigh
          have hcle : c ≤ h.remaining := by omega
          have step : h.record_log_costs (l :: ls)
              = Handle.record_log_costs
                  { h with remaining := h.remaining - c } ls := by
            simp [Handle.record_log_costs, Handle.record_log_costs_manual,
              hc, Handle.record_cost, Nat.not_lt.mpr hcle]
          rw [step,
            (ih cs2 { h with remaining := h.remaining - c } hrest).2 k2
              (by simpa using Nat.lt_of_succ_lt_succ hk)
              (by simp; omega) (by simp; omega)]
          simp [List.take_succ_cons, List.sum_cons]
          omega

/-- C8 witness: two topic-less empty-data events cost 375 each. With 1000
gas both charges go through in order, leaving 250. With 400 gas the first
charge commits (down to 25) and the second fails with `OutOfGas`; the first
charge is not rolled back. -/
theorem c8_record_log_costs_fail_fast_witness :
    Handle.record_log_costs ⟨1000, []⟩ [⟨0, [], []⟩, ⟨0, [], []⟩]
        = (Except.ok (), ⟨250, []⟩) ∧
    Handle.record_log_costs ⟨400, []⟩ [⟨0, [], []⟩, ⟨0, [], []⟩]
        = (Except.error (PrecompileFailure.Error ExitError.OutOfGas),
           ⟨25, []⟩) :=
  ⟨(c8_record_log_costs_fail_fast [⟨0, [], []⟩, ⟨0, [], []⟩] [375, 375]
      ⟨1000, []⟩ rfl).1 (by decide),
   (c8_record_log_costs_fail_fast [⟨0, [], []⟩, ⟨0, [], []⟩] [375, 375]
      ⟨400, []⟩ rfl).2 1 (by decide) (by decide) (by decide)⟩
